import Mathlib

/-!
Verification of the anti-api rust proxy (`src/rust-proxy/src/main.rs`).

The program is a serializing forwarding dispatcher.  Its pure core —
the rate limiter (`AppState::enforce_rate_limit`), the response
classification and failover loop in `handle_proxy`, and the wire-body
construction — is embedded below as executable Lean functions.  Time is
modelled as a `Nat` count of milliseconds (Rust `Instant` is a monotone
clock; `Duration` subtraction saturates at zero, matching `Nat`
subtraction).  The outcome of one network attempt is either a transport
failure or a status code together with an optional body (`none` when
reading the body fails, which the code maps to `""` via
`unwrap_or_default`).
-/

namespace AntiApi

/-- `MIN_REQUEST_INTERVAL_MS` from main.rs line 26. -/
def MIN_REQUEST_INTERVAL_MS : Nat := 500

/-- The ordered endpoint list `ENDPOINTS` from main.rs lines 29-32. -/
def ENDPOINTS : List String :=
  ["https://cloudcode-pa.googleapis.com/v1internal:streamGenerateContent?alt=sse",
   "https://daily-cloudcode-pa.sandbox.googleapis.com/v1internal:streamGenerateContent?alt=sse"]

/-- Inbound request body (`ProxyRequest`, main.rs lines 75-81).  The opaque
JSON payload `request` is modelled as a string. -/
structure ProxyRequest where
  model : String
  project : String
  access_token : String
  request : String
deriving DecidableEq

/-- Response envelope returned to the caller (`ProxyResponse`, main.rs
lines 83-90).  `status_code` is `none` exactly when the field is skipped
by serde. -/
structure ProxyResponse where
  success : Bool
  data : Option String
  error : Option String
  status_code : Option Nat
deriving DecidableEq

/-- The JSON wire body built in `handle_proxy` (main.rs lines 105-112). -/
structure WireBody where
  model : String
  userAgent : String
  requestType : String
  project : String
  requestId : String
  request : String
deriving DecidableEq

/-- Construction of the wire body (main.rs lines 105-112); `uuid` is the
one uuid generated for the inbound call. -/
def build_body (req : ProxyRequest) (uuid : String) : WireBody :=
  { model := req.model
    userAgent := "antigravity"
    requestType := "agent"
    project := req.project
    requestId := "agent-" ++ uuid
    request := req.request }

/-- Result of one outbound attempt: a transport-level failure (the `Err`
arm of `send().await`, main.rs line 212), or an HTTP response with status
code and the result of reading the body (`none` = the body read failed). -/
inductive UpstreamResult where
  | transportErr : UpstreamResult
  | response (status : Nat) (body : Option String) : UpstreamResult
deriving DecidableEq

/-- `http::StatusCode::is_success`: 200..=299. -/
def is_success (s : Nat) : Bool := 200 ≤ s && s ≤ 299

/-- `http::StatusCode::is_server_error`: 500..=599. -/
def is_server_error (s : Nat) : Bool := 500 ≤ s && s ≤ 599

/-- `StatusCode::from_u16(s).unwrap_or(fallback)`: `from_u16` succeeds
exactly on 100..=999. -/
def status_from_u16 (s fallback : Nat) : Nat :=
  if 100 ≤ s && s ≤ 999 then s else fallback

/-- Tagged outcome variants (spec section 3); the classification itself is
the branch structure of `handle_proxy`, main.rs lines 128-216. -/
inductive Outcome where
  | success (body : String) : Outcome
  | rateLimited (body : String) : Outcome
  | badRequest (body : String) : Outcome
  | authError (code : Nat) (body : String) : Outcome
  | serverError (code : Nat) : Outcome
  | transportError : Outcome
  | otherError (code : Nat) (body : String) : Outcome
deriving DecidableEq

/-- The response classification performed by the `match` in `handle_proxy`
(main.rs lines 128-216): 2xx first (line 133), then 429 (line 151), 400
(line 165), 401/403 (line 179), the `is_server_error` guard (line 193),
and the catch-all (line 199); the `Err` arm (line 212) is a transport
error.  A body that could not be read becomes `""`
(`unwrap_or_default`, lines 135 and 147). -/
def classify : UpstreamResult → Outcome
  | .transportErr => .transportError
  | .response s b =>
    let text := b.getD ""
    if is_success s then .success text
    else if s = 429 then .rateLimited text
    else if s = 400 then .badRequest text
    else if s = 401 || s = 403 then .authError s text
    else if is_server_error s then .serverError s
    else .otherError s text

/-- Whether an outcome stops the failover loop (everything except the
`continue` arms at main.rs lines 195 and 214). -/
def Outcome.isTerminal : Outcome → Bool
  | .serverError _ => false
  | .transportError => false
  | _ => true

/-- The `(StatusCode, Json(ProxyResponse))` pair each terminal arm of
`handle_proxy` returns (main.rs lines 136-144, 153-161, 167-175, 181-189,
200-208); `none` for the two `continue` arms. -/
def outcome_response : Outcome → Option (Nat × ProxyResponse)
  | .success body => some (200, ⟨true, some body, none, none⟩)
  | .rateLimited body => some (429, ⟨false, none, some body, some 429⟩)
  | .badRequest body => some (400, ⟨false, none, some body, some 400⟩)
  | .authError c body => some (status_from_u16 c 401, ⟨false, none, some body, some c⟩)
  | .serverError _ => none
  | .transportError => none
  | .otherError c body => some (status_from_u16 c 500, ⟨false, none, some body, some c⟩)

/-- The `ProxyResponse` synthesized when every endpoint failed
(main.rs lines 220-228). -/
def exhausted_response : ProxyResponse :=
  ⟨false, none, some "All endpoints failed", some 503⟩

/-- The endpoint loop of `handle_proxy` (main.rs lines 115-228): each pair
is an endpoint address together with the result its attempt would
produce.  Returns the list of `(endpoint, wire body)` sends actually
performed and the `(status, ProxyResponse)` returned to the caller. -/
def run_loop (body : WireBody) :
    List (String × UpstreamResult) → List (String × WireBody) × Nat × ProxyResponse
  | [] => ([], 503, exhausted_response)
  | (ep, r) :: rest =>
    match outcome_response (classify r) with
    | some out => ([(ep, body)], out)
    | none =>
      let next := run_loop body rest
      ((ep, body) :: next.1, next.2)

/-- `AppState::enforce_rate_limit` (main.rs lines 59-71), over a logical
millisecond clock.  `now` is the instant the caller reaches the limiter
and `last` the stored `last_request`.  Returns the instant at which the
caller wakes (after sleeping `min_interval - elapsed` when
`elapsed < min_interval`) and the new `last_request`, which is
unconditionally `Some` of that instant (line 70). -/
def enforce_rate_limit (now : Nat) (last : Option Nat) : Nat × Option Nat :=
  let wake :=
    match last with
    | none => now
    | some last_time =>
      let elapsed := now - last_time
      if elapsed < MIN_REQUEST_INTERVAL_MS then
        now + (MIN_REQUEST_INTERVAL_MS - elapsed)
      else now
  (wake, some wake)

/-- Result of one full `handle_proxy` invocation. -/
structure DispatchResult where
  new_last : Option Nat
  sends : List (String × WireBody)
  http_status : Nat
  response : ProxyResponse
deriving DecidableEq

/-- `handle_proxy` (main.rs lines 93-229) for one inbound call: enforce
the rate limit, build the wire body once (with the single fresh `uuid`),
then run the endpoint loop, where `results.get i` is the outcome the
attempt against `ENDPOINTS.get i` would yield.  The semaphore permit is
the concurrency gate and is outside this sequential model. -/
def handle_proxy (last : Option Nat) (now : Nat) (req : ProxyRequest) (uuid : String)
    (results : List UpstreamResult) : DispatchResult :=
  let rl := enforce_rate_limit now last
  let body := build_body req uuid
  let lo := run_loop body (ENDPOINTS.zip results)
  { new_last := rl.2
    sends := lo.1
    http_status := lo.2.1
    response := lo.2.2 }

/-- Dispatch-start timestamps recorded by a back-to-back sequence of
inbound calls: `arrivals.get i` is the instant call `i` reaches the rate
limiter (the gate serializes the calls, so these are in program order). -/
def record_times (last : Option Nat) : List Nat → List Nat
  | [] => []
  | now :: rest =>
    let e := enforce_rate_limit now last
    e.1 :: record_times e.2 rest

/-- A monotone-clock side condition: each call reaches the limiter no
earlier than the timestamp stored by the previous one (Rust `Instant` is
monotone, and the store happens before the next call's read). -/
def arrivals_ok (last : Option Nat) : List Nat → Bool
  | [] => true
  | now :: rest =>
    (match last with
     | none => true
     | some t => decide (t ≤ now)) &&
      arrivals_ok (enforce_rate_limit now last).2 rest

/-- Every adjacent pair of the list is at least `d` apart. -/
def gaps_ge (d : Nat) : List Nat → Bool
  | [] => true
  | [_] => true
  | a :: b :: rest => (decide (a + d ≤ b)) && gaps_ge d (b :: rest)

/-- Mutual consistency of the envelope fields (spec section 6). -/
def envelope_consistent (r : ProxyResponse) : Bool :=
  if r.success then r.data.isSome && r.error.isNone && r.status_code.isNone
  else r.data.isNone && r.error.isSome && r.status_code.isSome

/-! ### Helper lemmas -/

theorem outcome_response_eq_none_iff (o : Outcome) :
    outcome_response o = none ↔ o.isTerminal = false := by
  cases o <;> simp [outcome_response, Outcome.isTerminal]

theorem outcome_response_terminal_upstream (s : Nat) (b : Option String)
    (h100 : 100 ≤ s) (h999 : s ≤ 999)
    (hns : is_success s = false) (hnse : is_server_error s = false) :
    outcome_response (classify (.response s b)) =
      some (s, ⟨false, none, some (b.getD ""), some s⟩) := by
  have hfu401 : status_from_u16 s 401 = s := by simp [status_from_u16, h100, h999]
  have hfu500 : status_from_u16 s 500 = s := by simp [status_from_u16, h100, h999]
  by_cases h429 : s = 429
  · subst h429; simp [classify, outcome_response, hns]
  by_cases h400 : s = 400
  · subst h400; simp [classify, outcome_response, hns]
  by_cases h401 : s = 401
  · subst h401; simp [classify, outcome_response, hns, status_from_u16]
  by_cases h403 : s = 403
  · subst h403; simp [classify, outcome_response, hns, status_from_u16]
  simp [classify, outcome_response, hns, hnse, h429, h400, h401, h403, hfu500]

theorem run_loop_first_terminal (wb : WireBody) (ep : String) (r : UpstreamResult)
    (out : Nat × ProxyResponse) (rest : List (String × UpstreamResult))
    (h : outcome_response (classify r) = some out) :
    run_loop wb ((ep, r) :: rest) = ([(ep, wb)], out) := by
  simp [run_loop, h]

theorem handle_proxy_first_terminal (last : Option Nat) (now : Nat) (req : ProxyRequest)
    (uuid : String) (r : UpstreamResult) (rest : List UpstreamResult)
    (out : Nat × ProxyResponse) (h : outcome_response (classify r) = some out) :
    (handle_proxy last now req uuid (r :: rest)).http_status = out.1 ∧
    (handle_proxy last now req uuid (r :: rest)).response = out.2 ∧
    (handle_proxy last now req uuid (r :: rest)).sends.length = 1 := by
  simp [handle_proxy, ENDPOINTS, run_loop, h]

/-! ### Claim theorems -/

/-- C1: the classification of (status code or transport failure, body) into
an outcome follows the spec table exactly: 2xx is terminal success with the
body; 429 terminal rate-limited; 400 terminal bad-request; 401/403 terminal
auth error carrying the code; any 5xx non-terminal; transport failure
non-terminal; every other code a terminal other-error with code and body —
and an outcome is non-terminal exactly when the loop advances to the next
endpoint (`outcome_response` yields no return value). -/
theorem classify_follows_spec_table :
    (∀ s b, 200 ≤ s → s ≤ 299 →
      classify (.response s b) = .success (b.getD "") ∧
      (classify (.response s b)).isTerminal = true) ∧
    (∀ b, classify (.response 429 b) = .rateLimited (b.getD "") ∧
      (classify (.response 429 b)).isTerminal = true) ∧
    (∀ b, classify (.response 400 b) = .badRequest (b.getD "") ∧
      (classify (.response 400 b)).isTerminal = true) ∧
    (∀ s b, s = 401 ∨ s = 403 →
      classify (.response s b) = .authError s (b.getD "") ∧
      (classify (.response s b)).isTerminal = true) ∧
    (∀ s b, 500 ≤ s → s ≤ 599 →
      classify (.response s b) = .serverError s ∧
      (classify (.response s b)).isTerminal = false) ∧
    (classify .transportErr = .transportError ∧
      (classify .transportErr).isTerminal = false) ∧
    (∀ s b, ¬(200 ≤ s ∧ s ≤ 299) → s ≠ 429 → s ≠ 400 → s ≠ 401 → s ≠ 403 →
      ¬(500 ≤ s ∧ s ≤ 599) →
      classify (.response s b) = .otherError s (b.getD "") ∧
      (classify (.response s b)).isTerminal = true) ∧
    (∀ r, (classify r).isTerminal = false ↔ outcome_response (classify r) = none) := by
  refine ⟨?_, ?_, ?_, ?_, ?_, ?_, ?_, ?_⟩
  · intro s b h1 h2
    have hs : is_success s = true := by simp [is_success]; omega
    simp [classify, hs, Outcome.isTerminal]
  · intro b
    simp [classify, is_success, Outcome.isTerminal]
  · intro b
    simp [classify, is_success, Outcome.isTerminal]
  · intro s b h
    rcases h with rfl | rfl <;> simp [classify, is_success, Outcome.isTerminal]
  · intro s b h1 h2
    have hs : is_success s = false := by simp [is_success]; omega
    have hse : is_server_error s = true := by simp [is_server_error]; omega
    have h429 : ¬ s = 429 := by omega
    have h400 : ¬ s = 400 := by omega
    have h401 : (s = 401 ∨ s = 403) = False := by simp; omega
    simp [classify, hs, hse, h429, h400, h401, Outcome.isTerminal]
  · exact ⟨rfl, rfl⟩
  · intro s b h2xx h429 h400 h401 h403 h5xx
    have hs : is_success s = false := by simp [is_success]; omega
    have hse : is_server_error s = false := by simp [is_server_error]; omega
    simp [classify, hs, hse, h429, h400, h401, h403, Outcome.isTerminal]
  · intro r
    cases hc : classify r <;> simp [outcome_response, Outcome.isTerminal]

/-- Witness for C1 at concrete inputs: a 204 with readable body "ok" is a
terminal success carrying "ok". -/
theorem classify_follows_spec_table_witness :
    classify (.response 204 (some "ok")) = .success "ok" ∧
    (classify (.response 204 (some "ok"))).isTerminal = true :=
  classify_follows_spec_table.1 204 (some "ok") (by decide) (by decide)

/-- C2: when the first endpoint attempt yields a terminal-upstream status
(any valid non-2xx, non-5xx code, which covers 429, 400, 401, 403 and
"other"), `handle_proxy` returns that same status code with the upstream's
raw error body unchanged, and no later endpoint is attempted (exactly one
send happens). -/
theorem first_attempt_terminal_short_circuits (last : Option Nat) (now : Nat)
    (req : ProxyRequest) (uuid : String) (s : Nat) (body : String)
    (rest : List UpstreamResult)
    (h100 : 100 ≤ s) (h999 : s ≤ 999)
    (hns : is_success s = false) (hnse : is_server_error s = false) :
    (handle_proxy last now req uuid (.response s (some body) :: rest)).http_status = s ∧
    (handle_proxy last now req uuid (.response s (some body) :: rest)).response =
      ⟨false, none, some body, some s⟩ ∧
    (handle_proxy last now req uuid (.response s (some body) :: rest)).sends.length = 1 :=
  handle_proxy_first_terminal last now req uuid _ rest _
    (outcome_response_terminal_upstream s (some body) h100 h999 hns hnse)

/-- Witness for C2: a first-endpoint 429 with body "quota" resolves to
status 429, error body "quota", one single attempt. -/
theorem first_attempt_terminal_short_circuits_witness :
    (handle_proxy none 0 ⟨"m", "p", "tok", "rq"⟩ "u"
        [.response 429 (some "quota"), .response 200 (some "fine")]).http_status = 429 ∧
    (handle_proxy none 0 ⟨"m", "p", "tok", "rq"⟩ "u"
        [.response 429 (some "quota"), .response 200 (some "fine")]).response =
      ⟨false, none, some "quota", some 429⟩ ∧
    (handle_proxy none 0 ⟨"m", "p", "tok", "rq"⟩ "u"
        [.response 429 (some "quota"), .response 200 (some "fine")]).sends.length = 1 :=
  first_attempt_terminal_short_circuits none 0 ⟨"m", "p", "tok", "rq"⟩ "u" 429 "quota"
    [.response 200 (some "fine")] (by decide) (by decide) (by decide) (by decide)

/-- C3: endpoint 1 answering 500 and endpoint 2 answering 200 with body `B`
resolves to a success carrying exactly `B`, with both endpoints invoked (the
loop advances past the failed endpoint to endpoint 2). -/
theorem failover_past_500_to_success (last : Option Nat) (now : Nat)
    (req : ProxyRequest) (uuid : String) (b1 : Option String) (B : String) :
    (handle_proxy last now req uuid [.response 500 b1, .response 200 (some B)]).http_status
      = 200 ∧
    (handle_proxy last now req uuid [.response 500 b1, .response 200 (some B)]).response =
      ⟨true, some B, none, none⟩ ∧
    (handle_proxy last now req uuid [.response 500 b1, .response 200 (some B)]).sends.map
      Prod.fst = ENDPOINTS := by
  refine ⟨?_, ?_, ?_⟩ <;>
    simp [handle_proxy, ENDPOINTS, run_loop, classify, outcome_response, is_success,
      is_server_error]

theorem run_loop_all_non_terminal (wb : WireBody) (pairs : List (String × UpstreamResult))
    (h : ∀ p ∈ pairs, outcome_response (classify p.2) = none) :
    (run_loop wb pairs).2 = (503, exhausted_response) := by
  induction pairs with
  | nil => rfl
  | cons p rest ih =>
    obtain ⟨ep, r⟩ := p
    have hp : outcome_response (classify r) = none := h (ep, r) (by simp)
    simp only [run_loop, hp]
    exact ih fun q hq => h q (by simp [hq])

/-- C4: when every endpoint's attempt is non-terminal (5xx or transport
failure), the call resolves to 503 with the fixed "All endpoints failed"
message, which mentions no individual endpoint's status code or body. -/
theorem exhaustion_yields_fixed_503 (last : Option Nat) (now : Nat) (req : ProxyRequest)
    (uuid : String) (results : List UpstreamResult)
    (h : ∀ r ∈ results, (classify r).isTerminal = false) :
    (handle_proxy last now req uuid results).http_status = 503 ∧
    (handle_proxy last now req uuid results).response =
      ⟨false, none, some "All endpoints failed", some 503⟩ := by
  have hz : ∀ p ∈ ENDPOINTS.zip results, outcome_response (classify p.2) = none := by
    intro p hp
    exact (outcome_response_eq_none_iff _).2 (h p.2 (List.of_mem_zip hp).2)
  have := run_loop_all_non_terminal (build_body req uuid) (ENDPOINTS.zip results) hz
  constructor
  · simpa [handle_proxy] using congrArg Prod.fst this
  · simpa [handle_proxy, exhausted_response] using congrArg Prod.snd this

/-- Witness for C4: two 503 answers exhaust both endpoints and produce the
fixed 503 outcome. -/
theorem exhaustion_yields_fixed_503_witness :
    (handle_proxy none 0 ⟨"m", "p", "tok", "rq"⟩ "u"
        [.response 503 (some "a"), .response 503 (some "b")]).http_status = 503 ∧
    (handle_proxy none 0 ⟨"m", "p", "tok", "rq"⟩ "u"
        [.response 503 (some "a"), .response 503 (some "b")]).response =
      ⟨false, none, some "All endpoints failed", some 503⟩ :=
  exhaustion_yields_fixed_503 none 0 ⟨"m", "p", "tok", "rq"⟩ "u"
    [.response 503 (some "a"), .response 503 (some "b")] (by decide)

/-- C5: the rate limiter's effect on one inbound call: the stored
last-dispatch timestamp is unconditionally overwritten with the wake
instant, and it does not depend on the endpoint results (one rate-limit
slot per call, never per attempt); when the elapsed time since the stored
timestamp is below the minimum interval the caller sleeps exactly the
remaining delta, otherwise (and on the first call) it proceeds at once. -/
theorem rate_limit_once_per_call (last : Option Nat) (now : Nat) (req : ProxyRequest)
    (uuid : String) (results results2 : List UpstreamResult) :
    (handle_proxy last now req uuid results).new_last =
      some (enforce_rate_limit now last).1 ∧
    (handle_proxy last now req uuid results).new_last =
      (handle_proxy last now req uuid results2).new_last ∧
    (∀ t, last = some t → now - t < MIN_REQUEST_INTERVAL_MS →
      (enforce_rate_limit now last).1 = now + (MIN_REQUEST_INTERVAL_MS - (now - t))) ∧
    (∀ t, last = some t → MIN_REQUEST_INTERVAL_MS ≤ now - t →
      (enforce_rate_limit now last).1 = now) ∧
    (last = none → (enforce_rate_limit now last).1 = now) := by
  refine ⟨rfl, rfl, ?_, ?_, ?_⟩
  · rintro t rfl hlt
    simp [enforce_rate_limit, hlt]
  · rintro t rfl hge
    simp [enforce_rate_limit, Nat.not_lt.2 hge]
  · rintro rfl
    rfl

/-- Witness for C5: with the timestamp at 100 and the call arriving at 300,
the caller wakes at 300 + (500 - 200) = 600 and 600 is stored, regardless
of results. -/
theorem rate_limit_once_per_call_witness :
    (handle_proxy (some 100) 300 ⟨"m", "p", "tok", "rq"⟩ "u" []).new_last =
      some (enforce_rate_limit 300 (some 100)).1 ∧
    (enforce_rate_limit 300 (some 100)).1 =
      300 + (MIN_REQUEST_INTERVAL_MS - (300 - 100)) :=
  ⟨(rate_limit_once_per_call (some 100) 300 ⟨"m", "p", "tok", "rq"⟩ "u" [] []).1,
   (rate_limit_once_per_call (some 100) 300 ⟨"m", "p", "tok", "rq"⟩ "u" [] []).2.2.1
     100 rfl (by decide)⟩

theorem gaps_ge_of_cons {d a : Nat} {l : List Nat} (h : gaps_ge d (a :: l) = true) :
    gaps_ge d l = true := by
  cases l with
  | nil => rfl
  | cons b l2 =>
    simp only [gaps_ge, Bool.and_eq_true] at h
    exact h.2

theorem record_times_gaps_aux (nows : List Nat) (t : Nat)
    (h : arrivals_ok (some t) nows = true) :
    gaps_ge MIN_REQUEST_INTERVAL_MS (t :: record_times (some t) nows) = true := by
  induction nows generalizing t with
  | nil => rfl
  | cons now rest ih =>
    simp only [arrivals_ok, enforce_rate_limit, Bool.and_eq_true, decide_eq_true_eq] at h
    obtain ⟨hle, hrest⟩ := h
    simp only [record_times, enforce_rate_limit, gaps_ge, Bool.and_eq_true,
      decide_eq_true_eq]
    by_cases hw : now - t < MIN_REQUEST_INTERVAL_MS
    · simp only [if_pos hw] at hrest ⊢
      exact ⟨by simp only [MIN_REQUEST_INTERVAL_MS] at *; omega, ih _ hrest⟩
    · simp only [if_neg hw] at hrest ⊢
      exact ⟨by simp only [MIN_REQUEST_INTERVAL_MS] at *; omega, ih _ hrest⟩

/-- C6: for any back-to-back sequence of inbound calls (each reaching the
rate limiter no earlier than the previously stored timestamp, as the
serializing gate and a monotone clock guarantee), every pair of successive
recorded dispatch-start timestamps is at least the minimum interval
(500 ms) apart, for any number of calls. -/
theorem successive_dispatch_gaps (last : Option Nat) (nows : List Nat)
    (h : arrivals_ok last nows = true) :
    gaps_ge MIN_REQUEST_INTERVAL_MS (record_times last nows) = true := by
  cases last with
  | some t => exact gaps_ge_of_cons (record_times_gaps_aux nows t h)
  | none =>
    cases nows with
    | nil => rfl
    | cons now rest =>
      simp only [arrivals_ok, enforce_rate_limit, Bool.true_and] at h
      simpa only [record_times, enforce_rate_limit] using
        record_times_gaps_aux rest now h

/-- Witness for C6: three calls arriving at 0, 100 and 1200 are recorded at
0, 600 and 1200 — every gap is at least 500 ms. -/
theorem successive_dispatch_gaps_witness :
    arrivals_ok none [0, 100, 1200] = true ∧
    gaps_ge MIN_REQUEST_INTERVAL_MS (record_times none [0, 100, 1200]) = true :=
  ⟨by decide, successive_dispatch_gaps none [0, 100, 1200] (by decide)⟩

theorem run_loop_sends_all (wb : WireBody) (pairs : List (String × UpstreamResult)) :
    ((run_loop wb pairs).1.all fun p => decide (p.2 = wb)) = true := by
  induction pairs with
  | nil => rfl
  | cons p rest ih =>
    obtain ⟨ep, r⟩ := p
    cases h : outcome_response (classify r) with
    | some out => simp [run_loop, h]
    | none => simp [run_loop, h, ih]

/-- C7: the wire body carries `userAgent = "antigravity"`,
`requestType = "agent"`, `requestId = "agent-" ++ uuid` (one uuid per
inbound call), and the caller's model, project and payload; and every
endpoint attempt of the call sends that same body — so a failover reuses
the identical body and requestId. -/
theorem wire_body_shared_across_attempts (req : ProxyRequest) (uuid : String)
    (last : Option Nat) (now : Nat) (results : List UpstreamResult) :
    (build_body req uuid).userAgent = "antigravity" ∧
    (build_body req uuid).requestType = "agent" ∧
    (build_body req uuid).requestId = "agent-" ++ uuid ∧
    (build_body req uuid).model = req.model ∧
    (build_body req uuid).project = req.project ∧
    (build_body req uuid).request = req.request ∧
    ((handle_proxy last now req uuid results).sends.all
      fun p => decide (p.2 = build_body req uuid)) = true :=
  ⟨rfl, rfl, rfl, rfl, rfl, rfl,
   run_loop_sends_all (build_body req uuid) (ENDPOINTS.zip results)⟩

theorem outcome_response_consistent (o : Outcome) (out : Nat × ProxyResponse)
    (h : outcome_response o = some out) : envelope_consistent out.2 = true := by
  cases o <;> simp only [outcome_response, Option.some.injEq] at h <;>
    first
    | exact Option.noConfusion h
    | (subst h; rfl)

theorem run_loop_envelope (wb : WireBody) (pairs : List (String × UpstreamResult)) :
    envelope_consistent (run_loop wb pairs).2.2 = true := by
  induction pairs with
  | nil => rfl
  | cons p rest ih =>
    obtain ⟨ep, r⟩ := p
    cases h : outcome_response (classify r) with
    | some out =>
      simpa [run_loop, h] using outcome_response_consistent _ _ h
    | none => simpa [run_loop, h] using ih

/-- C9: every response returned to the caller is mutually consistent:
success responses carry data with error and status_code absent; failure
responses carry no data but an error and a status_code. -/
theorem response_envelope_consistent (last : Option Nat) (now : Nat) (req : ProxyRequest)
    (uuid : String) (results : List UpstreamResult) :
    envelope_consistent (handle_proxy last now req uuid results).response = true :=
  run_loop_envelope (build_body req uuid) (ENDPOINTS.zip results)

/-- C10: when the first endpoint answers a 2xx status but the body read
fails, the handler still returns success with data `""`, never surfacing
the read failure; and a terminal non-2xx answer whose body cannot be read
gets error `""` in the same way. -/
theorem unreadable_body_becomes_empty_string :
    (∀ (last : Option Nat) (now : Nat) (req : ProxyRequest) (uuid : String) (s : Nat)
        (rest : List UpstreamResult), is_success s = true →
      (handle_proxy last now req uuid (.response s none :: rest)).http_status = 200 ∧
      (handle_proxy last now req uuid (.response s none :: rest)).response =
        ⟨true, some "", none, none⟩) ∧
    (∀ (last : Option Nat) (now : Nat) (req : ProxyRequest) (uuid : String) (s : Nat)
        (rest : List UpstreamResult), 100 ≤ s → s ≤ 999 →
      is_success s = false → is_server_error s = false →
      (handle_proxy last now req uuid (.response s none :: rest)).http_status = s ∧
      (handle_proxy last now req uuid (.response s none :: rest)).response =
        ⟨false, none, some "", some s⟩) := by
  constructor
  · intro last now req uuid s rest hs
    have hc : outcome_response (classify (.response s none)) =
        some (200, ⟨true, some "", none, none⟩) := by
      simp [classify, outcome_response, hs]
    have h := handle_proxy_first_terminal last now req uuid _ rest _ hc
    exact ⟨h.1, h.2.1⟩
  · intro last now req uuid s rest h100 h999 hns hnse
    have h := handle_proxy_first_terminal last now req uuid _ rest _
      (outcome_response_terminal_upstream s none h100 h999 hns hnse)
    exact ⟨h.1, h.2.1⟩

/-- Witness for C10: a 204 whose body read fails still yields a success
response with data `""`. -/
theorem unreadable_body_becomes_empty_string_witness :
    (handle_proxy none 0 ⟨"m", "p", "tok", "rq"⟩ "u"
        [.response 204 none]).http_status = 200 ∧
    (handle_proxy none 0 ⟨"m", "p", "tok", "rq"⟩ "u"
        [.response 204 none]).response = ⟨true, some "", none, none⟩ :=
  unreadable_body_becomes_empty_string.1 none 0 ⟨"m", "p", "tok", "rq"⟩ "u" 204 []
    (by decide)

end AntiApi
